import Mathlib

/-!
# Verification of `weather_server.py`

A shallow embedding of the MCP weather server (`src/weather_server.py`):
its JSON data model, the pure formatting helpers (WMO weather-code lookup,
compass wind-direction mapping), the JSON-RPC dispatch of the POST `/sse`
endpoint, the ack-only POST `/messages` endpoint, and the SSE event stream.
Python exceptions are modelled with `Except`; the single outbound HTTP call
per tool invocation is counted in a state monad.
-/

/-- JSON values as produced by Python's `json.loads`.  A number carries both
its rational value (used by arithmetic such as the wind-direction formula and
by dictionary-key comparison) and its wire text (used when the value is
interpolated into an f-string, where Python prints the float's decimal
representation). -/
inductive Json where
  | null : Json
  | bool (b : Bool) : Json
  | num (q : Rat) (s : String) : Json
  | str (s : String) : Json
  | arr (xs : List Json) : Json
  | obj (kvs : List (String × Json)) : Json

mutual

/-- Structural decidable equality for `Json` (Python `==` on parsed JSON
values restricted to well-typed comparisons; the dispatcher only ever
compares against string literals). -/
def jsonDecEq : (a b : Json) → Decidable (a = b)
  | .null, .null => isTrue rfl
  | .bool x, .bool y =>
      match decEq x y with
      | isTrue h => isTrue (by rw [h])
      | isFalse h => isFalse (by intro hh; injection hh; contradiction)
  | .num q s, .num q' s' =>
      match decEq q q', decEq s s' with
      | isTrue h1, isTrue h2 => isTrue (by rw [h1, h2])
      | isFalse h1, _ => isFalse (by intro hh; injection hh; contradiction)
      | _, isFalse h2 => isFalse (by intro hh; injection hh; contradiction)
  | .str s, .str t =>
      match decEq s t with
      | isTrue h => isTrue (by rw [h])
      | isFalse h => isFalse (by intro hh; injection hh; contradiction)
  | .arr xs, .arr ys =>
      match jsonDecEqList xs ys with
      | isTrue h => isTrue (by rw [h])
      | isFalse h => isFalse (by intro hh; injection hh; contradiction)
  | .obj f, .obj g =>
      match jsonDecEqFields f g with
      | isTrue h => isTrue (by rw [h])
      | isFalse h => isFalse (by intro hh; injection hh; contradiction)
  | .null, .bool _ => isFalse nofun
  | .null, .num _ _ => isFalse nofun
  | .null, .str _ => isFalse nofun
  | .null, .arr _ => isFalse nofun
  | .null, .obj _ => isFalse nofun
  | .bool _, .null => isFalse nofun
  | .bool _, .num _ _ => isFalse nofun
  | .bool _, .str _ => isFalse nofun
  | .bool _, .arr _ => isFalse nofun
  | .bool _, .obj _ => isFalse nofun
  | .num _ _, .null => isFalse nofun
  | .num _ _, .bool _ => isFalse nofun
  | .num _ _, .str _ => isFalse nofun
  | .num _ _, .arr _ => isFalse nofun
  | .num _ _, .obj _ => isFalse nofun
  | .str _, .null => isFalse nofun
  | .str _, .bool _ => isFalse nofun
  | .str _, .num _ _ => isFalse nofun
  | .str _, .arr _ => isFalse nofun
  | .str _, .obj _ => isFalse nofun
  | .arr _, .null => isFalse nofun
  | .arr _, .bool _ => isFalse nofun
  | .arr _, .num _ _ => isFalse nofun
  | .arr _, .str _ => isFalse nofun
  | .arr _, .obj _ => isFalse nofun
  | .obj _, .null => isFalse nofun
  | .obj _, .bool _ => isFalse nofun
  | .obj _, .num _ _ => isFalse nofun
  | .obj _, .str _ => isFalse nofun
  | .obj _, .arr _ => isFalse nofun

/-- Decidable equality for lists of JSON values. -/
def jsonDecEqList : (a b : List Json) → Decidable (a = b)
  | [], [] => isTrue rfl
  | [], _ :: _ => isFalse nofun
  | _ :: _, [] => isFalse nofun
  | x :: xs, y :: ys =>
      match jsonDecEq x y, jsonDecEqList xs ys with
      | isTrue h1, isTrue h2 => isTrue (by rw [h1, h2])
      | isFalse h1, _ => isFalse (by intro hh; injection hh; contradiction)
      | _, isFalse h2 => isFalse (by intro hh; injection hh; contradiction)

/-- Decidable equality for JSON object field lists. -/
def jsonDecEqFields : (a b : List (String × Json)) → Decidable (a = b)
  | [], [] => isTrue rfl
  | [], _ :: _ => isFalse nofun
  | _ :: _, [] => isFalse nofun
  | (k, v) :: xs, (k', v') :: ys =>
      match decEq k k', jsonDecEq v v', jsonDecEqFields xs ys with
      | isTrue h1, isTrue h2, isTrue h3 => isTrue (by rw [h1, h2, h3])
      | isFalse h1, _, _ =>
          isFalse (by intro hh; injection hh with h4 h5; injection h4; contradiction)
      | _, isFalse h2, _ =>
          isFalse (by intro hh; injection hh with h4 h5; injection h4; contradiction)
      | _, _, isFalse h3 =>
          isFalse (by intro hh; injection hh with h4 h5; contradiction)

end

instance : DecidableEq Json := jsonDecEq

mutual

/-- Python `str()` as used by f-string interpolation.  Every value the server
actually interpolates is a leaf (`null`/`bool`/`num`/`str`); for composite
values we render the elements recursively (Python's `str` would additionally
`repr`-quote nested strings, a difference no code path of the server
exercises). -/
def pyStr : Json → String
  | .null => "None"
  | .bool true => "True"
  | .bool false => "False"
  | .num _ s => s
  | .str s => s
  | .arr xs => "[" ++ String.intercalate ", " (pyStrList xs) ++ "]"
  | .obj kvs => "\x7b" ++ String.intercalate ", " (pyStrFields kvs) ++ "\x7d"

def pyStrList : List Json → List String
  | [] => []
  | x :: xs => pyStr x :: pyStrList xs

def pyStrFields : List (String × Json) → List String
  | [] => []
  | (k, v) :: kvs => (k ++ ": " ++ pyStr v) :: pyStrFields kvs

end

/-- Python dict subscript `d[k]` on a JSON value: `KeyError` when the key is
absent, `TypeError` when the value is not a dict (a JSON string or list is not
subscriptable by a string key either). -/
def Json.item : Json → String → Except String Json
  | .obj kvs, k =>
      match kvs.lookup k with
      | some v => .ok v
      | none => .error ("KeyError: " ++ k)
  | _, _ => .error "TypeError: value is not subscriptable by a string key"

/-- Python subscript `v[i]` with a non-negative integer: list indexing, string
indexing (one-character string), `KeyError` on a dict (JSON object keys are
strings, an integer key is never present), `TypeError` otherwise. -/
def Json.itemIdx : Json → Nat → Except String Json
  | .arr xs, i =>
      match xs.get? i with
      | some v => .ok v
      | none => .error "IndexError: list index out of range"
  | .str s, i =>
      match s.data.get? i with
      | some c => .ok (.str (String.mk [c]))
      | none => .error "IndexError: string index out of range"
  | .obj _, _ => .error "KeyError: integer key"
  | _, _ => .error "TypeError: value is not subscriptable by an index"

/-- Python `d.get(k, default)` on a dict; raises `AttributeError` when the
value is not a dict. -/
def Json.getAttr : Json → String → Json → Except String Json
  | .obj kvs, k, dflt => .ok ((kvs.lookup k).getD dflt)
  | _, _, _ => .error "AttributeError: value has no attribute get"

/-- Python `d.get(k)` (default `None`). -/
def Json.get1 (j : Json) (k : String) : Except String Json :=
  j.getAttr k .null

/-- Python numeric coercion for `+` with a float: JSON numbers are numbers,
Python booleans are integers (`True == 1`, `False == 0`); everything else
raises `TypeError`. -/
def Json.asNum : Json → Except String Rat
  | .num q _ => .ok q
  | .bool true => .ok 1
  | .bool false => .ok 0
  | _ => .error "TypeError: unsupported operand type for +"

/-- `WEATHER_CODES`: the fixed WMO weather-code table of the source, in
source order. -/
def WEATHER_CODES : List (Int × String) :=
  [(0, "Helder"),
   (1, "Overwegend helder"),
   (2, "Gedeeltelijk bewolkt"),
   (3, "Bewolkt"),
   (45, "Mist"),
   (48, "Aanvriezende mist"),
   (51, "Lichte motregen"),
   (53, "Matige motregen"),
   (55, "Dichte motregen"),
   (61, "Lichte regen"),
   (63, "Matige regen"),
   (65, "Zware regen"),
   (71, "Lichte sneeuw"),
   (73, "Matige sneeuw"),
   (75, "Zware sneeuw"),
   (77, "Sneeuwkorrels"),
   (80, "Lichte buien"),
   (81, "Matige buien"),
   (82, "Zware buien"),
   (85, "Lichte sneeuwbuien"),
   (86, "Zware sneeuwbuien"),
   (95, "Onweer"),
   (96, "Onweer met lichte hagel"),
   (99, "Onweer met zware hagel")]

/-- `get_weather_description`: `WEATHER_CODES.get(code, "Onbekend")`. -/
def get_weather_description (code : Int) : String :=
  ((WEATHER_CODES.lookup code).getD "Onbekend")

/-- `get_weather_description` applied to a raw JSON value, with Python's
dict-key semantics: a float key equal to an integer finds that integer's
entry (`3.0 == 3`), booleans are the integers 0/1, strings and `None` never
equal an integer key (so fall to the default), and unhashable values (lists,
dicts) raise `TypeError`. -/
def describeJson : Json → Except String String
  | .num q _ => .ok (if q.den = 1 then get_weather_description q.num else "Onbekend")
  | .bool b => .ok (get_weather_description (if b then 1 else 0))
  | .str _ => .ok "Onbekend"
  | .null => .ok "Onbekend"
  | .arr _ => .error "TypeError: unhashable type list"
  | .obj _ => .error "TypeError: unhashable type dict"

/-- The ordered compass labels of the source. -/
def directions : List String := ["N", "NO", "O", "ZO", "Z", "ZW", "W", "NW"]

/-- Python `int()` truncation toward zero on a rational. -/
def pyTrunc (q : Rat) : Int :=
  if 0 ≤ q then q.floor else q.ceil

/-- The wind-direction conversion of the `get_current_weather` branch:
`directions[int((wind_dir + 22.5) / 45) % 8]` with Python's `int()`
(truncation toward zero) and Python's `%` (non-negative for a positive
modulus, as Lean's `Int.emod` is). -/
def wind_dir_text (wind_dir : Rat) : String :=
  directions.getD (pyTrunc ((wind_dir + 45/2) / 45) % 8).toNat ""

/-- The wind-direction mapping exactly as the specification words it:
sector index `floor((degrees + 22.5) / 45) mod 8`, indexed into the ordered
compass labels. -/
def spec_wind_label (degrees : Rat) : String :=
  directions.getD ((((degrees + 45/2) / 45).floor % 8).toNat) ""

/-! ## JSON-RPC envelope -/

/-- The `error` member of a JSON-RPC response. -/
structure RpcError where
  code : Int
  message : String

/-- The `response_data` dictionaries of the POST handler: `jsonrpc`, `id`,
and either a `result` or an `error` member. -/
structure Envelope where
  jsonrpc : String
  id : Json
  result : Option Json
  error : Option RpcError

/-- A success response dictionary, as every `"result"` branch builds it. -/
def okEnv (i : Json) (r : Json) : Envelope :=
  { jsonrpc := "2.0", id := i, result := some r, error := none }

/-- An error response dictionary, as every `"error"` branch builds it. -/
def errEnv (i : Json) (code : Int) (msg : String) : Envelope :=
  { jsonrpc := "2.0", id := i, result := none, error := some ⟨code, msg⟩ }

/-- Exactly one of `result`/`error` is present. -/
def envelope_exactly_one (e : Envelope) : Prop :=
  (e.result.isSome = true ∧ e.error = none) ∨
  (e.result = none ∧ e.error.isSome = true)

/-- The JSON body `json.dumps` would serialize for an envelope. -/
def Envelope.toJson (e : Envelope) : Json :=
  match e.result, e.error with
  | some r, _ =>
      .obj [("jsonrpc", .str e.jsonrpc), ("id", e.id), ("result", r)]
  | none, some err =>
      .obj [("jsonrpc", .str e.jsonrpc), ("id", e.id),
            ("error", .obj [("code", .num err.code (toString err.code)),
                            ("message", .str err.message)])]
  | none, none =>
      .obj [("jsonrpc", .str e.jsonrpc), ("id", e.id)]

/-! ## Upstream HTTP and the request monad

Each tool branch performs exactly one `client.get` to the OpenMeteo API.
The monad threads a counter of outbound calls (so "no retry" is a provable
statement) and models raised exceptions as `Except.error`. -/

/-- An upstream HTTP response: status code and parsed JSON body. -/
structure HttpResponse where
  status : Nat
  body : Json

/-- The request computation: a call counter plus Python exceptions. -/
def ServerM (α : Type) : Type := Nat → Except String α × Nat

/-- `pure` for `ServerM`. -/
def ServerM.pure (a : α) : ServerM α := fun n => (.ok a, n)

/-- `bind` for `ServerM`: an exception short-circuits but keeps the counter. -/
def ServerM.bind (x : ServerM α) (f : α → ServerM β) : ServerM β := fun n =>
  match x n with
  | (.ok a, n') => f a n'
  | (.error e, n') => (.error e, n')

/-- Lift a pure, possibly-raising step into the request computation. -/
def lf (x : Except String α) : ServerM α := fun n => (x, n)

/-- One `client.get(...)` followed by `raise_for_status()`: counts one
outbound call; a non-2xx status raises `HTTPStatusError`, otherwise the
parsed JSON body is returned. -/
def http_get (up : HttpResponse) : ServerM Json := fun n =>
  ((if 200 ≤ up.status ∧ up.status ≤ 299 then .ok up.body
    else .error ("HTTPStatusError: status " ++ toString up.status)), n + 1)

/-- The message of `json.JSONDecodeError` for an unparseable body (its exact
text depends on the body; no claim depends on it). -/
def json_decode_error_msg : String := "Expecting value: line 1 column 1 (char 0)"

/-! ## Static response payloads -/

/-- `str(LATITUDE)` as interpolated into tool descriptions. -/
def LATITUDE_STR : String := "51.836316614873176"

/-- `str(LONGITUDE)` as interpolated into tool descriptions. -/
def LONGITUDE_STR : String := "5.79300494667676"

/-- The empty object input schema shared by all three tools. -/
def empty_schema : Json :=
  .obj [("type", .str "object"), ("properties", .obj []), ("required", .arr [])]

/-- The `initialize` result payload. -/
def init_result_json : Json :=
  .obj [("protocolVersion", .str "2025-11-25"),
        ("capabilities", .obj [("tools", .obj [])]),
        ("serverInfo", .obj [("name", .str "weather-server"),
                             ("version", .str "2.0.0")])]

/-- One tool descriptor of the `tools/list` result. -/
def tool_descriptor (nm descr : String) : Json :=
  .obj [("name", .str nm), ("description", .str descr),
        ("inputSchema", empty_schema)]

/-- The `tools/list` result payload: the three registered tools, in source
order. -/
def tools_list_result : Json :=
  .obj [("tools", .arr
    [tool_descriptor "get_temperature"
       ("Get current temperature for location (" ++ LATITUDE_STR ++ ", " ++
        LONGITUDE_STR ++ ") via OpenMeteo API"),
     tool_descriptor "get_current_weather"
       ("Get detailed current weather including temperature, humidity, wind, and precipitation for location (" ++
        LATITUDE_STR ++ ", " ++ LONGITUDE_STR ++ ")"),
     tool_descriptor "get_forecast"
       ("Get 5-day weather forecast for location (" ++ LATITUDE_STR ++ ", " ++
        LONGITUDE_STR ++ ")")])]

/-- A tool-call result payload: one text content item. -/
def text_content_result (text : String) : Json :=
  .obj [("content", .arr [.obj [("type", .str "text"), ("text", .str text)]])]

/-! ## Tool computations (the pure part after the HTTP call) -/

/-- `get_temperature` text extraction:
`f"Current temperature: {data['current']['temperature_2m']}{data['current_units']['temperature_2m']}"`. -/
def temperature_text (api_data : Json) : Except String String :=
  Except.bind (api_data.item "current") (fun cur =>
  Except.bind (cur.item "temperature_2m") (fun temp =>
  Except.bind (api_data.item "current_units") (fun units =>
  Except.bind (units.item "temperature_2m") (fun unit =>
  .ok ("Current temperature: " ++ pyStr temp ++ pyStr unit)))))

/-- The `get_current_weather` multi-line template (string literals taken
byte-for-byte from the source, which stores mojibake where emoji were
intended). -/
def detailed_text (t app rh pr ws wind cond : String) : String :=
  "Actueel weer:\n" ++
  "üå°Ô∏è Temperatuur: " ++ t ++
    "¬∞C (voelt als " ++ app ++ "¬∞C)\n" ++
  "üíß Luchtvochtigheid: " ++ rh ++ "%\n" ++
  "üåßÔ∏è Neerslag: " ++ pr ++ " mm\n" ++
  "üí® Wind: " ++ ws ++ " km/u " ++ wind ++ "\n" ++
  "‚òÅÔ∏è Conditie: " ++ cond

/-- `get_current_weather` text extraction, in the source's evaluation
order: the wind direction is read and converted first, then the f-string
reads the remaining fields and looks up the weather-code description. -/
def current_weather_text (api_data : Json) : Except String String :=
  Except.bind (api_data.item "current") (fun current =>
  Except.bind (current.item "wind_direction_10m") (fun wd =>
  Except.bind wd.asNum (fun wind_dir =>
  Except.bind (current.item "temperature_2m") (fun t =>
  Except.bind (current.item "apparent_temperature") (fun app =>
  Except.bind (current.item "relative_humidity_2m") (fun rh =>
  Except.bind (current.item "precipitation") (fun pr =>
  Except.bind (current.item "wind_speed_10m") (fun ws =>
  Except.bind (current.item "weather_code") (fun wc =>
  Except.bind (describeJson wc) (fun cond =>
  .ok (detailed_text (pyStr t) (pyStr app) (pyStr rh) (pyStr pr) (pyStr ws)
        (wind_dir_text wind_dir) cond)))))))))))

/-- The header element the forecast branch seeds `forecast_lines` with. -/
def forecast_header : String := "5-daagse weersverwachting:\n"

/-- One day line of the forecast:
`f"{date}: {weather}, {temp_min}¬∞C - {temp_max}¬∞C, neerslag: {precip}mm"`
(the source's degree sign is the mojibake pair `¬∞`). -/
def forecast_day_line (date weather temp_min temp_max precip : String) : String :=
  date ++ ": " ++ weather ++ ", " ++ temp_min ++ "¬∞C - " ++
  temp_max ++ "¬∞C, neerslag: " ++ precip ++ "mm"

/-- Iteration `i` of the forecast loop: the five subscript reads in source
order, then the weather-code description, then the rendered line. -/
def forecast_day (daily : Json) (i : Nat) : Except String String :=
  Except.bind (daily.item "time") (fun ti =>
  Except.bind (ti.itemIdx i) (fun date =>
  Except.bind (daily.item "temperature_2m_max") (fun tx =>
  Except.bind (tx.itemIdx i) (fun temp_max =>
  Except.bind (daily.item "temperature_2m_min") (fun tn =>
  Except.bind (tn.itemIdx i) (fun temp_min =>
  Except.bind (daily.item "precipitation_sum") (fun ps =>
  Except.bind (ps.itemIdx i) (fun precip =>
  Except.bind (daily.item "weather_code") (fun wa =>
  Except.bind (wa.itemIdx i) (fun wc =>
  Except.bind (describeJson wc) (fun weather =>
  .ok (forecast_day_line (pyStr date) weather (pyStr temp_min)
        (pyStr temp_max) (pyStr precip)))))))))))))

/-- The `for i in range(5)` loop over a list of indices, appending one line
per iteration. -/
def forecast_lines_from (daily : Json) : List Nat → Except String (List String)
  | [] => .ok []
  | i :: rest =>
      Except.bind (forecast_day daily i) (fun line =>
      Except.bind (forecast_lines_from daily rest) (fun lines =>
      .ok (line :: lines)))

/-- The number of days the server requests from the provider
(`"forecast_days": 5`) and iterates over (`range(5)`). -/
def forecast_days_requested : Nat := 5

/-- The full `get_forecast` text: header plus the five day lines, joined
with newlines (`"\n".join(forecast_lines)`). -/
def forecast_result_text (api_data : Json) : Except String String :=
  Except.bind (api_data.item "daily") (fun daily =>
  Except.bind (forecast_lines_from daily (List.range forecast_days_requested))
    (fun lines =>
  .ok (String.intercalate "\n" (forecast_header :: lines))))

/-! ## The POST `/sse` dispatcher -/

/-- The method names the `if/elif` chain of the POST handler recognizes. -/
def registered_methods : List String := ["initialize", "tools/list", "tools/call"]

/-- The tool names the `tools/call` branch recognizes. -/
def registered_tools : List String :=
  ["get_temperature", "get_current_weather", "get_forecast"]

/-- The `try:` block of the POST branch of `handle_sse_endpoint`: read
`data.get("method")`, dispatch on it (and, for `tools/call`, on
`data.get("params", {}).get("name")`), performing the branch's upstream call
and building the branch's `response_data`.  Every raised exception becomes
`Except.error`. -/
def try_post_body (data : Json) (up : HttpResponse) : ServerM Envelope :=
  ServerM.bind (lf (data.get1 "method")) (fun method =>
  if method = Json.str "initialize" then
    ServerM.bind (lf (data.get1 "id")) (fun i =>
    ServerM.pure (okEnv i init_result_json))
  else if method = Json.str "tools/list" then
    ServerM.bind (lf (data.get1 "id")) (fun i =>
    ServerM.pure (okEnv i tools_list_result))
  else if method = Json.str "tools/call" then
    ServerM.bind (lf (data.getAttr "params" (.obj []))) (fun params =>
    ServerM.bind (lf (params.get1 "name")) (fun tool_name =>
    if tool_name = Json.str "get_temperature" then
      ServerM.bind (http_get up) (fun api_data =>
      ServerM.bind (lf (temperature_text api_data)) (fun text =>
      ServerM.bind (lf (data.get1 "id")) (fun i =>
      ServerM.pure (okEnv i (text_content_result text)))))
    else if tool_name = Json.str "get_current_weather" then
      ServerM.bind (http_get up) (fun api_data =>
      ServerM.bind (lf (current_weather_text api_data)) (fun text =>
      ServerM.bind (lf (data.get1 "id")) (fun i =>
      ServerM.pure (okEnv i (text_content_result text)))))
    else if tool_name = Json.str "get_forecast" then
      ServerM.bind (http_get up) (fun api_data =>
      ServerM.bind (lf (forecast_result_text api_data)) (fun text =>
      ServerM.bind (lf (data.get1 "id")) (fun i =>
      ServerM.pure (okEnv i (text_content_result text)))))
    else
      ServerM.bind (lf (data.get1 "id")) (fun i =>
      ServerM.pure (errEnv i (-32601) ("Unknown tool: " ++ pyStr tool_name)))))
  else
    ServerM.bind (lf (data.get1 "id")) (fun i =>
    ServerM.pure (errEnv i (-32601) ("Unknown method: " ++ pyStr method))))

/-- The POST branch of `handle_sse_endpoint`, exceptions included.  The body
is `none` when `request.json()` raised (unparseable body).  The `except`
clause answers with code `-32603` and id `data.get("id") if "data" in
locals() else None`; when `data` is bound but is not a dict, that very
expression raises again, so the exception escapes (`Except.error`).  The
second component counts outbound calls to the weather provider. -/
def handle_sse_post (body : Option Json) (up : HttpResponse) :
    Except String Envelope × Nat :=
  match body with
  | none => (.ok (errEnv .null (-32603) json_decode_error_msg), 0)
  | some data =>
      match try_post_body data up 0 with
      | (.ok env, n) => (.ok env, n)
      | (.error e, n) =>
          match data.get1 "id" with
          | .ok i => (.ok (errEnv i (-32603) e), n)
          | .error e2 => (.error e2, n)

/-- `handle_messages` (POST `/messages`): acks any body whose `.get("id")`
works with `{"jsonrpc", "id", "result": {"status": "ok"}}`; any raised
exception (unparseable body, non-dict body) is caught and answered with the
bare object `{"error": str(e)}`. -/
def handle_messages_body (body : Option Json) : Json :=
  match body with
  | none => .obj [("error", .str json_decode_error_msg)]
  | some data =>
      match data.get1 "id" with
      | .ok i => .obj [("jsonrpc", .str "2.0"), ("id", i),
                       ("result", .obj [("status", .str "ok")])]
      | .error e => .obj [("error", .str e)]

/-! ## The SSE stream -/

/-- What one `await asyncio.wait_for(message_queue.get(), timeout=30.0)` can
produce: a queued message (already `json.dumps`-serialized), a
`TimeoutError`, or any other exception. -/
inductive QEvent where
  | msg (payload : String) : QEvent
  | timeout : QEvent
  | exn (e : String) : QEvent

/-- The SSE framing of one queued message. -/
def data_frame (payload : String) : String := "data: " ++ payload ++ "\n\n"

/-- The keepalive frame emitted on timeout. -/
def keepalive_frame : String := ": keepalive\n\n"

/-- The queue wait timeout (`timeout=30.0`). -/
def queue_wait_timeout : Rat := 30

/-- `event_stream`: loop forever yielding one frame per queued message; the
first `TimeoutError` yields a single keepalive and ends the generator
(control falls off the `except` clause); any other exception ends it with no
further output.  The argument lists the successive outcomes of the queue
waits; an exhausted list models a client that disconnected. -/
def event_stream : List QEvent → List String
  | [] => []
  | .msg p :: rest => data_frame p :: event_stream rest
  | .timeout :: _ => [keepalive_frame]
  | .exn _ :: _ => []

/-- The five `daily` fields the forecast loop subscripts, in access order. -/
def required_daily_fields : List String :=
  ["time", "temperature_2m_max", "temperature_2m_min", "precipitation_sum",
   "weather_code"]

/-! ## Helper lemmas -/

/-- `Rat.floor` agrees with the bracketing characterisation. -/
theorem ratFloor_eq (q : Rat) (z : Int) (h1 : (z:Rat) ≤ q) (h2 : q < z + 1) :
    q.floor = z := by
  have a : z ≤ q.floor := Rat.le_floor.mpr h1
  have b : ¬ (z + 1 ≤ q.floor) := by
    intro hc
    have hcast := Rat.le_floor.mp hc
    push_cast at hcast
    linarith
  omega

/-- An association list with no matching key looks up to `none`. -/
theorem int_lookup_eq_none {β : Type} (l : List (Int × β)) (c : Int)
    (h : c ∉ l.map Prod.fst) : l.lookup c = none := by
  induction l with
  | nil => rfl
  | cons a t ih =>
      simp only [List.map_cons, List.mem_cons] at h
      push_neg at h
      obtain ⟨h1, h2⟩ := h
      rcases a with ⟨k, b⟩
      simp only [List.lookup]
      rw [show (c == k) = false from beq_eq_false_iff_ne.mpr (fun e => h1 e)]
      exact ih h2

/-- Every successful run of the `try:` block answers with an envelope that
echoes `data.get("id")` and carries exactly one of `result`/`error`. -/
theorem try_post_body_ok_shape (kvs : List (String × Json)) (up : HttpResponse)
    (n0 : Nat) (env : Envelope) (n : Nat)
    (h : try_post_body (.obj kvs) up n0 = (.ok env, n)) :
    env.id = (kvs.lookup "id").getD .null ∧ envelope_exactly_one env := by
  unfold try_post_body at h
  repeat' (first
    | split at h
    | simp only [ServerM.bind, ServerM.pure, lf, Json.get1, Json.getAttr, http_get] at h)
  all_goals try simp_all [envelope_exactly_one]
  all_goals (obtain ⟨h1, h2⟩ := h; subst h1; simp [okEnv, errEnv])

/-- For every dict-shaped POST body the `/sse` handler returns (it never
raises), echoing `data.get("id")` with exactly one of `result`/`error` set:
the `except` clause turns every raised exception into a `-32603` envelope
with the same id. -/
theorem handle_post_dict_responds (kvs : List (String × Json)) (up : HttpResponse) :
    ∃ env n, handle_sse_post (some (.obj kvs)) up = (.ok env, n) ∧
      env.id = (kvs.lookup "id").getD .null ∧ envelope_exactly_one env := by
  unfold handle_sse_post
  rcases htry : try_post_body (.obj kvs) up 0 with ⟨res, n⟩
  cases res with
  | ok env =>
      exact ⟨env, n, by simp [htry],
             (try_post_body_ok_shape kvs up 0 env n htry).1,
             (try_post_body_ok_shape kvs up 0 env n htry).2⟩
  | error e =>
      refine ⟨errEnv ((kvs.lookup "id").getD .null) (-32603) e, n, ?_, rfl, ?_⟩
      · simp [htry, Json.get1, Json.getAttr]
      · simp [errEnv, envelope_exactly_one]

/-- An unregistered method name answers `-32601`, echoing the id, with no
upstream call. -/
theorem unknown_method_32601 (kvs : List (String × Json)) (up : HttpResponse)
    (m : String) (hm : m ∉ registered_methods)
    (hmeth : (kvs.lookup "method").getD .null = Json.str m) :
    handle_sse_post (some (.obj kvs)) up =
      (.ok (errEnv ((kvs.lookup "id").getD .null) (-32601)
        ("Unknown method: " ++ m)), 0) := by
  have h1 : m ≠ "initialize" := by rintro rfl; simp [registered_methods] at hm
  have h2 : m ≠ "tools/list" := by rintro rfl; simp [registered_methods] at hm
  have h3 : m ≠ "tools/call" := by rintro rfl; simp [registered_methods] at hm
  unfold handle_sse_post try_post_body
  simp [ServerM.bind, ServerM.pure, lf, Json.get1, Json.getAttr, hmeth, h1, h2, h3, pyStr]

/-- An unregistered tool name under `tools/call` answers `-32601`, echoing
the id, with no upstream call. -/
theorem unknown_tool_32601 (kvs pkvs : List (String × Json)) (up : HttpResponse)
    (t : String) (ht : t ∉ registered_tools)
    (hmeth : (kvs.lookup "method").getD .null = Json.str "tools/call")
    (hparams : (kvs.lookup "params").getD (Json.obj []) = Json.obj pkvs)
    (hname : (pkvs.lookup "name").getD .null = Json.str t) :
    handle_sse_post (some (.obj kvs)) up =
      (.ok (errEnv ((kvs.lookup "id").getD .null) (-32601)
        ("Unknown tool: " ++ t)), 0) := by
  have h1 : t ≠ "get_temperature" := by rintro rfl; simp [registered_tools] at ht
  have h2 : t ≠ "get_current_weather" := by rintro rfl; simp [registered_tools] at ht
  have h3 : t ≠ "get_forecast" := by rintro rfl; simp [registered_tools] at ht
  unfold handle_sse_post try_post_body
  simp [ServerM.bind, ServerM.pure, lf, Json.get1, Json.getAttr, hmeth, hparams, hname,
    h1, h2, h3, pyStr]

/-- A successful subscript read from an object yields the looked-up value. -/
theorem item_obj_ok (kvs : List (String × Json)) (k : String) (v : Json)
    (h : Json.item (.obj kvs) k = .ok v) : kvs.lookup k = some v := by
  simp only [Json.item] at h
  rcases hl : List.lookup k kvs with _ | v'
  · rw [hl] at h; simp at h
  · rw [hl] at h; simp at h; rw [h]

/-- A successful list subscript is in bounds. -/
theorem itemIdx_arr_ok (xs : List Json) (i : Nat) (x : Json)
    (h : Json.itemIdx (.arr xs) i = .ok x) : i < xs.length := by
  simp only [Json.itemIdx] at h
  rcases hg : xs.get? i with _ | v
  · rw [hg] at h; simp at h
  · obtain ⟨hlt, _⟩ := List.get?_eq_some.mp hg
    exact hlt

/-- Building the forecast lines succeeds pointwise, preserving index order. -/
theorem forecast_lines_from_ok (daily : Json) (l : List Nat) (g : Nat → String)
    (h : ∀ i ∈ l, forecast_day daily i = .ok (g i)) :
    forecast_lines_from daily l = .ok (l.map g) := by
  induction l with
  | nil => rfl
  | cons a t ih =>
      have ha := h a (List.mem_cons_self a t)
      have ht := ih (fun i hi => h i (List.mem_cons_of_mem a hi))
      simp [forecast_lines_from, ha, ht, Except.bind]

/-- A successful build means every iteration succeeded. -/
theorem forecast_day_ok_of_ok (daily : Json) (l : List Nat) (lines : List String)
    (h : forecast_lines_from daily l = .ok lines) :
    ∀ i ∈ l, ∃ s, forecast_day daily i = .ok s := by
  induction l generalizing lines with
  | nil => intro i hi; cases hi
  | cons a t ih =>
      intro i hi
      rcases hd : forecast_day daily a with e | s
      · rw [forecast_lines_from, hd] at h; simp [Except.bind] at h
      · rcases ht : forecast_lines_from daily t with e | ls
        · rw [forecast_lines_from, hd, ht] at h; simp [Except.bind] at h
        · rcases List.mem_cons.mp hi with rfl | hmem
          · exact ⟨s, hd⟩
          · exact ih ls ht i hmem

/-- A successful forecast iteration read all five daily fields and indexed
each of them in bounds. -/
theorem forecast_day_ok_inversion (dkvs : List (String × Json)) (i : Nat) (s : String)
    (h : forecast_day (.obj dkvs) i = .ok s) :
    (∃ v, dkvs.lookup "time" = some v ∧ ∃ x, v.itemIdx i = .ok x) ∧
    (∃ v, dkvs.lookup "temperature_2m_max" = some v ∧ ∃ x, v.itemIdx i = .ok x) ∧
    (∃ v, dkvs.lookup "temperature_2m_min" = some v ∧ ∃ x, v.itemIdx i = .ok x) ∧
    (∃ v, dkvs.lookup "precipitation_sum" = some v ∧ ∃ x, v.itemIdx i = .ok x) ∧
    (∃ v, dkvs.lookup "weather_code" = some v ∧ ∃ x, v.itemIdx i = .ok x) := by
  unfold forecast_day at h
  rcases ha1 : Json.item (Json.obj dkvs) "time" with e | v1
  · rw [ha1] at h; exact absurd h (by simp [Except.bind])
  rw [ha1] at h; simp only [Except.bind] at h
  rcases ha2 : v1.itemIdx i with e | d1
  · rw [ha2] at h; exact absurd h (by simp [Except.bind])
  rw [ha2] at h; simp only [Except.bind] at h
  rcases ha3 : Json.item (Json.obj dkvs) "temperature_2m_max" with e | v2
  · rw [ha3] at h; exact absurd h (by simp [Except.bind])
  rw [ha3] at h; simp only [Except.bind] at h
  rcases ha4 : v2.itemIdx i with e | d2
  · rw [ha4] at h; exact absurd h (by simp [Except.bind])
  rw [ha4] at h; simp only [Except.bind] at h
  rcases ha5 : Json.item (Json.obj dkvs) "temperature_2m_min" with e | v3
  · rw [ha5] at h; exact absurd h (by simp [Except.bind])
  rw [ha5] at h; simp only [Except.bind] at h
  rcases ha6 : v3.itemIdx i with e | d3
  · rw [ha6] at h; exact absurd h (by simp [Except.bind])
  rw [ha6] at h; simp only [Except.bind] at h
  rcases ha7 : Json.item (Json.obj dkvs) "precipitation_sum" with e | v4
  · rw [ha7] at h; exact absurd h (by simp [Except.bind])
  rw [ha7] at h; simp only [Except.bind] at h
  rcases ha8 : v4.itemIdx i with e | d4
  · rw [ha8] at h; exact absurd h (by simp [Except.bind])
  rw [ha8] at h; simp only [Except.bind] at h
  rcases ha9 : Json.item (Json.obj dkvs) "weather_code" with e | v5
  · rw [ha9] at h; exact absurd h (by simp [Except.bind])
  rw [ha9] at h; simp only [Except.bind] at h
  rcases ha10 : v5.itemIdx i with e | d5
  · rw [ha10] at h; exact absurd h (by simp [Except.bind])
  exact ⟨⟨v1, item_obj_ok _ _ _ ha1, d1, ha2⟩,
         ⟨v2, item_obj_ok _ _ _ ha3, d2, ha4⟩,
         ⟨v3, item_obj_ok _ _ _ ha5, d3, ha6⟩,
         ⟨v4, item_obj_ok _ _ _ ha7, d4, ha8⟩,
         ⟨v5, item_obj_ok _ _ _ ha9, d5, ha10⟩⟩

/-- Evaluation of one wellformed forecast iteration. -/
theorem forecast_day_eval (dkvs : List (String × Json))
    (ds xs ns ps ws : List Json) (i : Nat) (w : String)
    (hds : dkvs.lookup "time" = some (.arr ds))
    (hxs : dkvs.lookup "temperature_2m_max" = some (.arr xs))
    (hns : dkvs.lookup "temperature_2m_min" = some (.arr ns))
    (hps : dkvs.lookup "precipitation_sum" = some (.arr ps))
    (hws : dkvs.lookup "weather_code" = some (.arr ws))
    (hlds : i < ds.length) (hlxs : i < xs.length) (hlns : i < ns.length)
    (hlps : i < ps.length) (hlws : i < ws.length)
    (hw : describeJson ((ws.get? i).getD .null) = .ok w) :
    forecast_day (.obj dkvs) i =
      .ok (forecast_day_line (pyStr ((ds.get? i).getD .null)) w
        (pyStr ((ns.get? i).getD .null)) (pyStr ((xs.get? i).getD .null))
        (pyStr ((ps.get? i).getD .null))) := by
  have h5 := List.get?_eq_get hlws
  rw [h5] at hw
  simp only [Option.getD_some, List.get_eq_getElem] at hw
  simp [forecast_day, Json.item, hds, hxs, hns, hps, hws, Json.itemIdx, Except.bind,
    List.get?_eq_getElem?, List.getElem?_eq_getElem, hlds, hlxs, hlns, hlps, hlws, hw]

/-- The `tools/call get_forecast` branch under a successful upstream call:
the response wraps the forecast text as a result, or its exception as a
`-32603` error, after exactly one outbound call. -/
theorem handle_forecast_run (kvs pkvs : List (String × Json)) (up : HttpResponse)
    (hmeth : (kvs.lookup "method").getD .null = Json.str "tools/call")
    (hparams : (kvs.lookup "params").getD (Json.obj []) = Json.obj pkvs)
    (hname : (pkvs.lookup "name").getD .null = Json.str "get_forecast")
    (hstatus : 200 ≤ up.status ∧ up.status ≤ 299) :
    (∀ t, forecast_result_text up.body = .ok t →
      handle_sse_post (some (.obj kvs)) up =
        (.ok (okEnv ((kvs.lookup "id").getD .null) (text_content_result t)), 1)) ∧
    (∀ e, forecast_result_text up.body = .error e →
      handle_sse_post (some (.obj kvs)) up =
        (.ok (errEnv ((kvs.lookup "id").getD .null) (-32603) e), 1)) := by
  constructor <;> intro v hv <;>
    (unfold handle_sse_post try_post_body
     simp [ServerM.bind, ServerM.pure, lf, Json.get1, Json.getAttr, hmeth, hparams, hname,
       http_get, hstatus, hv])

/-- The first frame after a data frame differs from the keepalive frame. -/
theorem data_frame_ne_keepalive (p : String) : data_frame p ≠ keepalive_frame := by
  intro h
  have hd : (data_frame p).data = keepalive_frame.data := by rw [h]
  simp only [data_frame, keepalive_frame, String.data_append] at hd
  simp at hd

/-! ## Claims -/

/-- C1: for every inbound POST `/sse` call whose body parses (to a dict) and
whose method is registered, the returned envelope's id equals the request's
id exactly (absent id echoed as null, via `data.get("id")`), and exactly one
of `result`/`error` is present — never both, never neither. -/
theorem c1_registered_method_echoes_id_exactly_one
    (kvs : List (String × Json)) (up : HttpResponse) (m : String)
    (_hm : m ∈ registered_methods)
    (_hmeth : (kvs.lookup "method").getD .null = Json.str m) :
    ∃ env n, handle_sse_post (some (.obj kvs)) up = (.ok env, n) ∧
      env.id = (kvs.lookup "id").getD .null ∧ envelope_exactly_one env :=
  handle_post_dict_responds kvs up

/-- Witness for `c1_registered_method_echoes_id_exactly_one` at a concrete
`initialize` request with id 1. -/
theorem c1_registered_method_echoes_id_exactly_one_witness :
    ("initialize" ∈ registered_methods ∧
      (([("method", Json.str "initialize"), ("id", Json.num 1 "1")] :
        List (String × Json)).lookup "method").getD .null = Json.str "initialize") ∧
    ∃ env n,
      handle_sse_post (some (.obj [("method", Json.str "initialize"),
        ("id", Json.num 1 "1")])) ⟨200, .null⟩ = (.ok env, n) ∧
      env.id = (([("method", Json.str "initialize"), ("id", Json.num 1 "1")] :
        List (String × Json)).lookup "id").getD .null ∧
      envelope_exactly_one env :=
  ⟨⟨by decide, by decide⟩,
   c1_registered_method_echoes_id_exactly_one _ ⟨200, .null⟩ "initialize"
     (by decide) (by decide)⟩

/-- Counterexample to C2: at POST `/messages`, an unparseable body is
answered with the bare object `{"error": msg}` — no `jsonrpc` member, no
`id` member at all (hence not `id: null`), and no `-32603` code: it is not
the claimed error envelope. -/
theorem c2_messages_unparseable_counterexample :
    handle_messages_body none = Json.obj [("error", Json.str json_decode_error_msg)] ∧
    (handle_messages_body none).item "jsonrpc" = .error "KeyError: jsonrpc" ∧
    (handle_messages_body none).item "id" = .error "KeyError: id" ∧
    handle_messages_body none ≠
      (errEnv Json.null (-32603) json_decode_error_msg).toJson :=
  ⟨rfl, rfl, rfl, by decide⟩

/-- C2 (amended): at POST `/sse` every unparseable body yields a `-32603`
error envelope with `id: null` and no exception escapes the handler; at
POST `/messages` the caller still receives a JSON body on an unparseable
request, but it is the bare `{"error": message}` object, not a JSON-RPC
envelope with `-32603`/`id: null`. -/
theorem c2_amended_unparseable_handling :
    (∀ up : HttpResponse, handle_sse_post none up =
      (.ok (errEnv Json.null (-32603) json_decode_error_msg), 0)) ∧
    handle_messages_body none =
      Json.obj [("error", Json.str json_decode_error_msg)] :=
  ⟨fun _ => rfl, rfl⟩

/-- C3: an unregistered method name on POST `/sse`, and an unregistered tool
name under `tools/call`, are both answered with an error envelope carrying
code `-32601`. -/
theorem c3_unknown_method_or_tool_32601 :
    (∀ (kvs : List (String × Json)) (up : HttpResponse) (m : String),
        m ∉ registered_methods →
        (kvs.lookup "method").getD .null = Json.str m →
        handle_sse_post (some (.obj kvs)) up =
          (.ok (errEnv ((kvs.lookup "id").getD .null) (-32601)
            ("Unknown method: " ++ m)), 0)) ∧
    (∀ (kvs pkvs : List (String × Json)) (up : HttpResponse) (t : String),
        t ∉ registered_tools →
        (kvs.lookup "method").getD .null = Json.str "tools/call" →
        (kvs.lookup "params").getD (Json.obj []) = Json.obj pkvs →
        (pkvs.lookup "name").getD .null = Json.str t →
        handle_sse_post (some (.obj kvs)) up =
          (.ok (errEnv ((kvs.lookup "id").getD .null) (-32601)
            ("Unknown tool: " ++ t)), 0)) :=
  ⟨unknown_method_32601, unknown_tool_32601⟩

/-- Witness for `c3_unknown_method_or_tool_32601` at a concrete unknown
method and a concrete unknown tool. -/
theorem c3_unknown_method_or_tool_32601_witness :
    ("frobnicate" ∉ registered_methods ∧
     handle_sse_post (some (.obj [("method", Json.str "frobnicate")])) ⟨200, .null⟩ =
       (.ok (errEnv Json.null (-32601) "Unknown method: frobnicate"), 0)) ∧
    ("make_coffee" ∉ registered_tools ∧
     handle_sse_post (some (.obj [("method", Json.str "tools/call"),
        ("params", Json.obj [("name", Json.str "make_coffee")])])) ⟨200, .null⟩ =
       (.ok (errEnv Json.null (-32601) "Unknown tool: make_coffee"), 0)) :=
  ⟨⟨by decide, c3_unknown_method_or_tool_32601.1 _ ⟨200, .null⟩ "frobnicate"
      (by decide) (by decide)⟩,
   ⟨by decide, c3_unknown_method_or_tool_32601.2 _ [("name", Json.str "make_coffee")]
      ⟨200, .null⟩ "make_coffee" (by decide) (by decide) (by decide) (by decide)⟩⟩

/-- C4: the wind-direction mapping is a pure total function agreeing on
`[0, 360)` with the specified `floor((degrees + 22.5) / 45) mod 8` indexing
into the ordered compass labels, with `f(0) = "N"`, `f(22.4) = "N"`,
`f(22.6) = "NO"` and `f(359.9) = "N"` (wraparound near 360/0). -/
theorem c4_wind_direction_mapping :
    (∀ d : Rat, 0 ≤ d → d < 360 → wind_dir_text d = spec_wind_label d) ∧
    wind_dir_text 0 = "N" ∧ wind_dir_text (112/5) = "N" ∧
    wind_dir_text (113/5) = "NO" ∧ wind_dir_text (3599/10) = "N" := by
  refine ⟨fun d h0 h1 => ?_, ?_, ?_, ?_, ?_⟩
  · unfold wind_dir_text spec_wind_label pyTrunc
    rw [if_pos (by positivity)]
  · unfold wind_dir_text pyTrunc
    rw [if_pos (by norm_num),
      ratFloor_eq (((0:Rat) + 45/2)/45) 0 (by norm_num) (by norm_num)]
    rfl
  · unfold wind_dir_text pyTrunc
    rw [if_pos (by norm_num),
      ratFloor_eq (((112/5:Rat) + 45/2)/45) 0 (by norm_num) (by norm_num)]
    rfl
  · unfold wind_dir_text pyTrunc
    rw [if_pos (by norm_num),
      ratFloor_eq (((113/5:Rat) + 45/2)/45) 1 (by norm_num) (by norm_num)]
    rfl
  · unfold wind_dir_text pyTrunc
    rw [if_pos (by norm_num),
      ratFloor_eq (((3599/10:Rat) + 45/2)/45) 8 (by norm_num) (by norm_num)]
    rfl

/-- Witness for `c4_wind_direction_mapping` at degree 0. -/
theorem c4_wind_direction_mapping_witness :
    (0:Rat) ≤ 0 ∧ (0:Rat) < 360 ∧ wind_dir_text 0 = spec_wind_label 0 :=
  ⟨le_refl 0, by norm_num, c4_wind_direction_mapping.1 0 (le_refl 0) (by norm_num)⟩

/-- C5: after a queue wait times out (timeout fixed at 30 units), the stream
emits exactly one keepalive frame and terminates — whatever would come after
the timeout is never consumed, the keepalive count of the whole output is
one, and the keepalive is the final frame. -/
theorem c5_timeout_one_keepalive_then_stop (msgs : List String) (rest : List QEvent) :
    queue_wait_timeout = 30 ∧
    event_stream (msgs.map QEvent.msg ++ QEvent.timeout :: rest) =
      msgs.map data_frame ++ [keepalive_frame] ∧
    (event_stream (msgs.map QEvent.msg ++ QEvent.timeout :: rest)).count
      keepalive_frame = 1 ∧
    (event_stream (msgs.map QEvent.msg ++ QEvent.timeout :: rest)).getLast? =
      some keepalive_frame := by
  have hstream : event_stream (msgs.map QEvent.msg ++ QEvent.timeout :: rest) =
      msgs.map data_frame ++ [keepalive_frame] := by
    induction msgs with
    | nil => rfl
    | cons a t ih => simp [event_stream, ih]
  refine ⟨rfl, hstream, ?_, ?_⟩
  · rw [hstream, List.count_append]
    have hzero : (msgs.map data_frame).count keepalive_frame = 0 := by
      rw [List.count_eq_zero]
      intro hmem
      obtain ⟨p, _, hp⟩ := List.mem_map.mp hmem
      exact data_frame_ne_keepalive p hp
    simp [hzero]
  · rw [hstream]
    simp

/-- C6: a `tools/call` of a registered tool whose upstream call returns a
non-2xx status is answered with a `-32603` error envelope (the handler does
not crash), and exactly one outbound call is made — no retry. -/
theorem c6_upstream_error_32603_one_call (kvs pkvs : List (String × Json))
    (up : HttpResponse) (t : String)
    (ht : t ∈ registered_tools)
    (hmeth : (kvs.lookup "method").getD .null = Json.str "tools/call")
    (hparams : (kvs.lookup "params").getD (Json.obj []) = Json.obj pkvs)
    (hname : (pkvs.lookup "name").getD .null = Json.str t)
    (hstatus : ¬(200 ≤ up.status ∧ up.status ≤ 299)) :
    handle_sse_post (some (.obj kvs)) up =
      (.ok (errEnv ((kvs.lookup "id").getD .null) (-32603)
        ("HTTPStatusError: status " ++ toString up.status)), 1) := by
  unfold handle_sse_post try_post_body
  simp only [registered_tools, List.mem_cons, List.mem_singleton, List.not_mem_nil,
    or_false] at ht
  rcases ht with rfl | rfl | rfl
  all_goals simp [ServerM.bind, ServerM.pure, lf, Json.get1, Json.getAttr, hmeth, hparams,
    hname, http_get, hstatus]

/-- Witness for `c6_upstream_error_32603_one_call` with a simulated
upstream 500 on `get_temperature`. -/
theorem c6_upstream_error_32603_one_call_witness :
    "get_temperature" ∈ registered_tools ∧
    ¬(200 ≤ 500 ∧ 500 ≤ 299) ∧
    handle_sse_post (some (.obj [("method", Json.str "tools/call"),
        ("id", Json.num 2 "2"),
        ("params", Json.obj [("name", Json.str "get_temperature")])]))
      ⟨500, .null⟩ =
      (.ok (errEnv (Json.num 2 "2") (-32603) "HTTPStatusError: status 500"), 1) :=
  ⟨by decide, by decide,
   c6_upstream_error_32603_one_call _ [("name", Json.str "get_temperature")]
     ⟨500, .null⟩ "get_temperature" (by decide) (by decide) (by decide) (by decide)
     (by decide)⟩

/-- C7: every integer condition code outside the fixed table maps to the
`"Onbekend"` sentinel; the lookup is a total function and never raises. -/
theorem c7_unknown_code_onbekend (code : Int)
    (h : code ∉ WEATHER_CODES.map Prod.fst) :
    get_weather_description code = "Onbekend" := by
  unfold get_weather_description
  rw [int_lookup_eq_none WEATHER_CODES code h]
  rfl

/-- Witness for `c7_unknown_code_onbekend` at code 4 (absent from the
table). -/
theorem c7_unknown_code_onbekend_witness :
    ((4:Int) ∉ WEATHER_CODES.map Prod.fst) ∧ get_weather_description 4 = "Onbekend" :=
  ⟨by decide, c7_unknown_code_onbekend 4 (by decide)⟩

/-- C8: for the upstream payload
`{"current": {"temperature_2m": 14.2}, "current_units": {"temperature_2m": "°C"}}`
the instant-mode result text is exactly `"Current temperature: 14.2°C"`,
and in general the unit is passed through from the provider's unit field
rather than assumed. -/
theorem c8_instant_temperature_text :
    handle_sse_post (some (.obj [("method", Json.str "tools/call"),
        ("id", Json.num 1 "1"),
        ("params", Json.obj [("name", Json.str "get_temperature")])]))
      ⟨200, .obj [("current", .obj [("temperature_2m", .num (71/5) "14.2")]),
                  ("current_units", .obj [("temperature_2m", .str "°C")])]⟩ =
      (.ok (okEnv (Json.num 1 "1")
        (text_content_result "Current temperature: 14.2°C")), 1) ∧
    (∀ (tq : Rat) (ts us : String),
      temperature_text (.obj [("current", .obj [("temperature_2m", .num tq ts)]),
          ("current_units", .obj [("temperature_2m", .str us)])]) =
        .ok ("Current temperature: " ++ ts ++ us)) :=
  ⟨rfl, fun _ _ _ => rfl⟩

/-- C9 (amended): for every wellformed upstream payload of the 5 requested
days, the forecast text is the title element (whose trailing newline yields
a blank line) followed by exactly `forecast_days_requested` day lines, one
per day in the provider's (chronological) order, each rendering that day's
date, condition description, min-max temperature range and precipitation
sum. -/
theorem c9_amended_forecast_lines (api : Json) (dkvs : List (String × Json))
    (ds xs ns ps ws : List Json) (w : Nat → String)
    (hdaily : api.item "daily" = .ok (.obj dkvs))
    (hds : dkvs.lookup "time" = some (.arr ds))
    (hxs : dkvs.lookup "temperature_2m_max" = some (.arr xs))
    (hns : dkvs.lookup "temperature_2m_min" = some (.arr ns))
    (hps : dkvs.lookup "precipitation_sum" = some (.arr ps))
    (hws : dkvs.lookup "weather_code" = some (.arr ws))
    (hlds : 5 ≤ ds.length) (hlxs : 5 ≤ xs.length) (hlns : 5 ≤ ns.length)
    (hlps : 5 ≤ ps.length) (hlws : 5 ≤ ws.length)
    (hdesc : ∀ i < 5, describeJson ((ws.get? i).getD .null) = .ok (w i)) :
    forecast_result_text api =
      .ok (String.intercalate "\n" (forecast_header ::
        (List.range forecast_days_requested).map (fun i =>
          forecast_day_line (pyStr ((ds.get? i).getD .null)) (w i)
            (pyStr ((ns.get? i).getD .null)) (pyStr ((xs.get? i).getD .null))
            (pyStr ((ps.get? i).getD .null))))) ∧
    ((List.range forecast_days_requested).map (fun i =>
        forecast_day_line (pyStr ((ds.get? i).getD .null)) (w i)
          (pyStr ((ns.get? i).getD .null)) (pyStr ((xs.get? i).getD .null))
          (pyStr ((ps.get? i).getD .null)))).length = forecast_days_requested := by
  have hlines : forecast_lines_from (.obj dkvs) (List.range forecast_days_requested) =
      .ok ((List.range forecast_days_requested).map (fun i =>
        forecast_day_line (pyStr ((ds.get? i).getD .null)) (w i)
          (pyStr ((ns.get? i).getD .null)) (pyStr ((xs.get? i).getD .null))
          (pyStr ((ps.get? i).getD .null)))) := by
    apply forecast_lines_from_ok
    intro i hi
    have hi5 : i < 5 := by
      simpa [forecast_days_requested, List.mem_range] using hi
    exact forecast_day_eval dkvs ds xs ns ps ws i (w i) hds hxs hns hps hws
      (lt_of_lt_of_le hi5 hlds) (lt_of_lt_of_le hi5 hlxs) (lt_of_lt_of_le hi5 hlns)
      (lt_of_lt_of_le hi5 hlps) (lt_of_lt_of_le hi5 hlws) (hdesc i hi5)
  constructor
  · simp [forecast_result_text, hdaily, hlines, Except.bind]
  · simp

set_option maxRecDepth 4000 in
/-- Counterexample to C9 as stated: on a wellformed 5-day payload the
formatted text has 6 newline characters, i.e. 7 newline-separated lines
rather than the claimed 5: the title line and the blank line from the
header's trailing newline precede the 5 day lines. -/
theorem c9_counterexample :
    ∃ t, forecast_result_text (.obj [("daily", .obj [
        ("time", .arr [.str "2026-01-01", .str "2026-01-02", .str "2026-01-03",
                       .str "2026-01-04", .str "2026-01-05"]),
        ("temperature_2m_max", .arr [.num 5 "5", .num 6 "6", .num 7 "7",
                                     .num 8 "8", .num 9 "9"]),
        ("temperature_2m_min", .arr [.num 1 "1", .num 2 "2", .num 3 "3",
                                     .num 4 "4", .num 5 "5"]),
        ("precipitation_sum", .arr [.num 0 "0", .num 0 "0", .num 0 "0",
                                    .num 0 "0", .num 0 "0"]),
        ("weather_code", .arr [.num 0 "0", .num 1 "1", .num 2 "2",
                               .num 3 "3", .num 45 "45"])])]) = .ok t ∧
      t.data.count '\n' + 1 = 7 ∧
      forecast_days_requested = 5 ∧
      t.data.count '\n' + 1 ≠ forecast_days_requested := by
  refine ⟨_, rfl, by decide, rfl, by decide⟩

set_option maxRecDepth 4000 in
/-- Witness for `c9_amended_forecast_lines` on a concrete 5-day payload. -/
theorem c9_amended_forecast_lines_witness :
    (∀ i < 5, describeJson (([Json.num 3 "3", Json.num 3 "3", Json.num 3 "3",
        Json.num 3 "3", Json.num 3 "3"].get? i).getD .null) = .ok "Bewolkt") ∧
    forecast_result_text (.obj [("daily", .obj [
        ("time", .arr [.str "d1", .str "d2", .str "d3", .str "d4", .str "d5"]),
        ("temperature_2m_max", .arr [.num 9 "9", .num 9 "9", .num 9 "9",
                                     .num 9 "9", .num 9 "9"]),
        ("temperature_2m_min", .arr [.num 1 "1", .num 1 "1", .num 1 "1",
                                     .num 1 "1", .num 1 "1"]),
        ("precipitation_sum", .arr [.num 0 "0", .num 0 "0", .num 0 "0",
                                    .num 0 "0", .num 0 "0"]),
        ("weather_code", .arr [.num 3 "3", .num 3 "3", .num 3 "3",
                               .num 3 "3", .num 3 "3"])])]) =
      .ok (String.intercalate "\n" (forecast_header ::
        (List.range forecast_days_requested).map (fun i =>
          forecast_day_line
            (pyStr (([Json.str "d1", .str "d2", .str "d3", .str "d4",
                      .str "d5"].get? i).getD .null))
            "Bewolkt"
            (pyStr (([Json.num 1 "1", .num 1 "1", .num 1 "1", .num 1 "1",
                      .num 1 "1"].get? i).getD .null))
            (pyStr (([Json.num 9 "9", .num 9 "9", .num 9 "9", .num 9 "9",
                      .num 9 "9"].get? i).getD .null))
            (pyStr (([Json.num 0 "0", .num 0 "0", .num 0 "0", .num 0 "0",
                      .num 0 "0"].get? i).getD .null))))) :=
  ⟨fun i hi => by interval_cases i <;> rfl,
   (c9_amended_forecast_lines
     (.obj [("daily", .obj [
        ("time", .arr [.str "d1", .str "d2", .str "d3", .str "d4", .str "d5"]),
        ("temperature_2m_max", .arr [.num 9 "9", .num 9 "9", .num 9 "9",
                                     .num 9 "9", .num 9 "9"]),
        ("temperature_2m_min", .arr [.num 1 "1", .num 1 "1", .num 1 "1",
                                     .num 1 "1", .num 1 "1"]),
        ("precipitation_sum", .arr [.num 0 "0", .num 0 "0", .num 0 "0",
                                    .num 0 "0", .num 0 "0"]),
        ("weather_code", .arr [.num 3 "3", .num 3 "3", .num 3 "3",
                               .num 3 "3", .num 3 "3"])])])
     [("time", .arr [.str "d1", .str "d2", .str "d3", .str "d4", .str "d5"]),
      ("temperature_2m_max", .arr [.num 9 "9", .num 9 "9", .num 9 "9",
                                   .num 9 "9", .num 9 "9"]),
      ("temperature_2m_min", .arr [.num 1 "1", .num 1 "1", .num 1 "1",
                                   .num 1 "1", .num 1 "1"]),
      ("precipitation_sum", .arr [.num 0 "0", .num 0 "0", .num 0 "0",
                                  .num 0 "0", .num 0 "0"]),
      ("weather_code", .arr [.num 3 "3", .num 3 "3", .num 3 "3",
                             .num 3 "3", .num 3 "3"])]
     [.str "d1", .str "d2", .str "d3", .str "d4", .str "d5"]
     [.num 9 "9", .num 9 "9", .num 9 "9", .num 9 "9", .num 9 "9"]
     [.num 1 "1", .num 1 "1", .num 1 "1", .num 1 "1", .num 1 "1"]
     [.num 0 "0", .num 0 "0", .num 0 "0", .num 0 "0", .num 0 "0"]
     [.num 3 "3", .num 3 "3", .num 3 "3", .num 3 "3", .num 3 "3"]
     (fun _ => "Bewolkt")
     rfl rfl rfl rfl rfl rfl (by decide) (by decide) (by decide) (by decide)
     (by decide) (fun i hi => by interval_cases i <;> rfl)).1⟩

/-- C10 (amended): with `daily` present and the five required fields arrays
of length at least 5 whose `weather_code` entries are hashable scalars (each
has a description), the `get_forecast` branch indexes in bounds and answers
with a result envelope after one upstream call; if `daily` is missing, or a
required field is missing or an array is shorter than 5 (the present fields
being arrays), the call answers the `-32603` internal-error envelope instead
of substituting defaults. -/
theorem c10_forecast_daily_bounds :
    (∀ (kvs pkvs dkvs : List (String × Json)) (up : HttpResponse)
       (ds xs ns ps ws : List Json) (w : Nat → String),
       (kvs.lookup "method").getD .null = Json.str "tools/call" →
       (kvs.lookup "params").getD (Json.obj []) = Json.obj pkvs →
       (pkvs.lookup "name").getD .null = Json.str "get_forecast" →
       200 ≤ up.status ∧ up.status ≤ 299 →
       up.body.item "daily" = .ok (.obj dkvs) →
       dkvs.lookup "time" = some (.arr ds) →
       dkvs.lookup "temperature_2m_max" = some (.arr xs) →
       dkvs.lookup "temperature_2m_min" = some (.arr ns) →
       dkvs.lookup "precipitation_sum" = some (.arr ps) →
       dkvs.lookup "weather_code" = some (.arr ws) →
       5 ≤ ds.length → 5 ≤ xs.length → 5 ≤ ns.length → 5 ≤ ps.length →
       5 ≤ ws.length →
       (∀ i < 5, describeJson ((ws.get? i).getD .null) = .ok (w i)) →
       ∃ t, handle_sse_post (some (.obj kvs)) up =
         (.ok (okEnv ((kvs.lookup "id").getD .null) (text_content_result t)), 1)) ∧
    (∀ (kvs pkvs dkvs : List (String × Json)) (up : HttpResponse),
       (kvs.lookup "method").getD .null = Json.str "tools/call" →
       (kvs.lookup "params").getD (Json.obj []) = Json.obj pkvs →
       (pkvs.lookup "name").getD .null = Json.str "get_forecast" →
       200 ≤ up.status ∧ up.status ≤ 299 →
       up.body.item "daily" = .ok (.obj dkvs) →
       (∀ k ∈ required_daily_fields, ∀ v, dkvs.lookup k = some v →
          ∃ vs, v = Json.arr vs) →
       ¬(∀ k ∈ required_daily_fields, ∃ vs,
          dkvs.lookup k = some (Json.arr vs) ∧ 5 ≤ vs.length) →
       ∃ e, handle_sse_post (some (.obj kvs)) up =
         (.ok (errEnv ((kvs.lookup "id").getD .null) (-32603) e), 1)) ∧
    (∀ (kvs pkvs : List (String × Json)) (up : HttpResponse) (e0 : String),
       (kvs.lookup "method").getD .null = Json.str "tools/call" →
       (kvs.lookup "params").getD (Json.obj []) = Json.obj pkvs →
       (pkvs.lookup "name").getD .null = Json.str "get_forecast" →
       200 ≤ up.status ∧ up.status ≤ 299 →
       up.body.item "daily" = .error e0 →
       handle_sse_post (some (.obj kvs)) up =
         (.ok (errEnv ((kvs.lookup "id").getD .null) (-32603) e0), 1)) := by
  refine ⟨?_, ?_, ?_⟩
  · intro kvs pkvs dkvs up ds xs ns ps ws w hmeth hparams hname hstatus hdaily
      hds hxs hns hps hws hlds hlxs hlns hlps hlws hdesc
    have hlines : forecast_lines_from (.obj dkvs)
        (List.range forecast_days_requested) =
        .ok ((List.range forecast_days_requested).map (fun i =>
          forecast_day_line (pyStr ((ds.get? i).getD .null)) (w i)
            (pyStr ((ns.get? i).getD .null)) (pyStr ((xs.get? i).getD .null))
            (pyStr ((ps.get? i).getD .null)))) := by
      apply forecast_lines_from_ok
      intro i hi
      have hi5 : i < 5 := by
        simpa [forecast_days_requested, List.mem_range] using hi
      exact forecast_day_eval dkvs ds xs ns ps ws i (w i) hds hxs hns hps hws
        (lt_of_lt_of_le hi5 hlds) (lt_of_lt_of_le hi5 hlxs)
        (lt_of_lt_of_le hi5 hlns) (lt_of_lt_of_le hi5 hlps)
        (lt_of_lt_of_le hi5 hlws) (hdesc i hi5)
    have htext : forecast_result_text up.body =
        .ok (String.intercalate "\n" (forecast_header ::
          (List.range forecast_days_requested).map (fun i =>
            forecast_day_line (pyStr ((ds.get? i).getD .null)) (w i)
              (pyStr ((ns.get? i).getD .null)) (pyStr ((xs.get? i).getD .null))
              (pyStr ((ps.get? i).getD .null))))) := by
      simp [forecast_result_text, hdaily, hlines, Except.bind]
    exact ⟨_, (handle_forecast_run kvs pkvs up hmeth hparams hname hstatus).1 _ htext⟩
  · intro kvs pkvs dkvs up hmeth hparams hname hstatus hdaily harr hnot
    rcases hres : forecast_result_text up.body with e | t
    · exact ⟨e, (handle_forecast_run kvs pkvs up hmeth hparams hname hstatus).2 e hres⟩
    · exfalso
      apply hnot
      unfold forecast_result_text at hres
      rw [hdaily] at hres
      simp only [Except.bind] at hres
      rcases hl : forecast_lines_from (.obj dkvs) (List.range forecast_days_requested)
        with e | lines
      · rw [hl] at hres; simp at hres
      · obtain ⟨s, hs⟩ := forecast_day_ok_of_ok _ _ _ hl 4
          (by simp [forecast_days_requested])
        have inv := forecast_day_ok_inversion dkvs 4 s hs
        intro k hk
        simp only [required_daily_fields, List.mem_cons, List.not_mem_nil,
          or_false] at hk
        rcases hk with rfl | rfl | rfl | rfl | rfl
        · obtain ⟨v, hv, x, hx⟩ := inv.1
          obtain ⟨vs, rfl⟩ := harr "time" (by simp [required_daily_fields]) v hv
          exact ⟨vs, hv, by have := itemIdx_arr_ok vs 4 x hx; omega⟩
        · obtain ⟨v, hv, x, hx⟩ := inv.2.1
          obtain ⟨vs, rfl⟩ := harr "temperature_2m_max"
            (by simp [required_daily_fields]) v hv
          exact ⟨vs, hv, by have := itemIdx_arr_ok vs 4 x hx; omega⟩
        · obtain ⟨v, hv, x, hx⟩ := inv.2.2.1
          obtain ⟨vs, rfl⟩ := harr "temperature_2m_min"
            (by simp [required_daily_fields]) v hv
          exact ⟨vs, hv, by have := itemIdx_arr_ok vs 4 x hx; omega⟩
        · obtain ⟨v, hv, x, hx⟩ := inv.2.2.2.1
          obtain ⟨vs, rfl⟩ := harr "precipitation_sum"
            (by simp [required_daily_fields]) v hv
          exact ⟨vs, hv, by have := itemIdx_arr_ok vs 4 x hx; omega⟩
        · obtain ⟨v, hv, x, hx⟩ := inv.2.2.2.2
          obtain ⟨vs, rfl⟩ := harr "weather_code"
            (by simp [required_daily_fields]) v hv
          exact ⟨vs, hv, by have := itemIdx_arr_ok vs 4 x hx; omega⟩
  · intro kvs pkvs up e0 hmeth hparams hname hstatus hdaily
    have htext : forecast_result_text up.body = .error e0 := by
      simp [forecast_result_text, hdaily, Except.bind]
    exact (handle_forecast_run kvs pkvs up hmeth hparams hname hstatus).2 e0 htext

set_option maxRecDepth 8000 in
/-- Counterexample to C10 as stated: the stated precondition (daily present,
all five arrays of length 5) does not make the error branch unreachable —
with list-valued `weather_code` entries the dictionary lookup raises
`TypeError` (unhashable key) and the call answers `-32603`. -/
theorem c10_counterexample :
    ([(Json.arr []), .arr [], .arr [], .arr [], .arr []].length = 5 ∧
     ([Json.str "d1", .str "d2", .str "d3", .str "d4", .str "d5"].length = 5)) ∧
    handle_sse_post (some (.obj [("method", Json.str "tools/call"),
        ("id", Json.num 7 "7"),
        ("params", Json.obj [("name", Json.str "get_forecast")])]))
      ⟨200, .obj [("daily", .obj [
        ("time", .arr [.str "d1", .str "d2", .str "d3", .str "d4", .str "d5"]),
        ("temperature_2m_max", .arr [.num 9 "9", .num 9 "9", .num 9 "9",
                                     .num 9 "9", .num 9 "9"]),
        ("temperature_2m_min", .arr [.num 1 "1", .num 1 "1", .num 1 "1",
                                     .num 1 "1", .num 1 "1"]),
        ("precipitation_sum", .arr [.num 0 "0", .num 0 "0", .num 0 "0",
                                    .num 0 "0", .num 0 "0"]),
        ("weather_code", .arr [.arr [], .arr [], .arr [], .arr [], .arr []])])]⟩ =
      (.ok (errEnv (Json.num 7 "7") (-32603) "TypeError: unhashable type list"), 1) :=
  ⟨⟨rfl, rfl⟩, rfl⟩

set_option maxRecDepth 8000 in
/-- Witness for `c10_forecast_daily_bounds`: the in-bounds part on a concrete
wellformed payload, and the missing-`daily` part on an empty upstream body. -/
theorem c10_forecast_daily_bounds_witness :
    (∃ t, handle_sse_post (some (.obj [("method", Json.str "tools/call"),
        ("id", Json.num 7 "7"),
        ("params", Json.obj [("name", Json.str "get_forecast")])]))
      ⟨200, .obj [("daily", .obj [
        ("time", .arr [.str "d1", .str "d2", .str "d3", .str "d4", .str "d5"]),
        ("temperature_2m_max", .arr [.num 9 "9", .num 9 "9", .num 9 "9",
                                     .num 9 "9", .num 9 "9"]),
        ("temperature_2m_min", .arr [.num 1 "1", .num 1 "1", .num 1 "1",
                                     .num 1 "1", .num 1 "1"]),
        ("precipitation_sum", .arr [.num 0 "0", .num 0 "0", .num 0 "0",
                                    .num 0 "0", .num 0 "0"]),
        ("weather_code", .arr [.num 3 "3", .num 3 "3", .num 3 "3",
                               .num 3 "3", .num 3 "3"])])]⟩ =
      (.ok (okEnv (Json.num 7 "7") (text_content_result t)), 1)) ∧
    handle_sse_post (some (.obj [("method", Json.str "tools/call"),
        ("id", Json.num 7 "7"),
        ("params", Json.obj [("name", Json.str "get_forecast")])]))
      ⟨200, .obj []⟩ =
      (.ok (errEnv (Json.num 7 "7") (-32603) "KeyError: daily"), 1) :=
  ⟨c10_forecast_daily_bounds.1
     [("method", Json.str "tools/call"), ("id", Json.num 7 "7"),
      ("params", Json.obj [("name", Json.str "get_forecast")])]
     [("name", Json.str "get_forecast")]
     [("time", Json.arr [.str "d1", .str "d2", .str "d3", .str "d4", .str "d5"]),
      ("temperature_2m_max", Json.arr [.num 9 "9", .num 9 "9", .num 9 "9",
                                       .num 9 "9", .num 9 "9"]),
      ("temperature_2m_min", Json.arr [.num 1 "1", .num 1 "1", .num 1 "1",
                                       .num 1 "1", .num 1 "1"]),
      ("precipitation_sum", Json.arr [.num 0 "0", .num 0 "0", .num 0 "0",
                                      .num 0 "0", .num 0 "0"]),
      ("weather_code", Json.arr [.num 3 "3", .num 3 "3", .num 3 "3",
                                 .num 3 "3", .num 3 "3"])]
     ⟨200, .obj [("daily", .obj [
        ("time", .arr [.str "d1", .str "d2", .str "d3", .str "d4", .str "d5"]),
        ("temperature_2m_max", .arr [.num 9 "9", .num 9 "9", .num 9 "9",
                                     .num 9 "9", .num 9 "9"]),
        ("temperature_2m_min", .arr [.num 1 "1", .num 1 "1", .num 1 "1",
                                     .num 1 "1", .num 1 "1"]),
        ("precipitation_sum", .arr [.num 0 "0", .num 0 "0", .num 0 "0",
                                    .num 0 "0", .num 0 "0"]),
        ("weather_code", .arr [.num 3 "3", .num 3 "3", .num 3 "3",
                               .num 3 "3", .num 3 "3"])])]⟩
     [.str "d1", .str "d2", .str "d3", .str "d4", .str "d5"]
     [.num 9 "9", .num 9 "9", .num 9 "9", .num 9 "9", .num 9 "9"]
     [.num 1 "1", .num 1 "1", .num 1 "1", .num 1 "1", .num 1 "1"]
     [.num 0 "0", .num 0 "0", .num 0 "0", .num 0 "0", .num 0 "0"]
     [.num 3 "3", .num 3 "3", .num 3 "3", .num 3 "3", .num 3 "3"]
     (fun _ => "Bewolkt")
     (by decide) (by decide) (by decide) (by decide) rfl rfl rfl rfl rfl rfl
     (by decide) (by decide) (by decide) (by decide) (by decide)
     (fun i hi => by interval_cases i <;> rfl),
   c10_forecast_daily_bounds.2.2
     [("method", Json.str "tools/call"), ("id", Json.num 7 "7"),
      ("params", Json.obj [("name", Json.str "get_forecast")])]
     [("name", Json.str "get_forecast")]
     ⟨200, .obj []⟩ "KeyError: daily"
     (by decide) (by decide) (by decide) (by decide) rfl⟩
